import Mathlib

/-!
Verification development for the adk-mcp-a2a-langgraph example repository.

The Python sources are shallowly embedded: every agent/task-manager/tool
function that the properties below talk about is translated into an
executable Lean definition over explicit data models of the Python values
involved.  External collaborators (the LLM runtime, the MCP transport, the
`json` library, `asyncio` primitives) are modelled at their interface:
a remote call is a value `Except String PyVal` (exception type name or
result), the JSON parse of a string is recorded alongside the raw string,
and the cooperative single-threaded pool operations are explicit state
transformers.
-/

namespace YTA

/-- Character-list prefix test, used to embed Python `str.startswith`. -/
def listStarts : List Char → List Char → Bool
  | [], _ => true
  | _ :: _, [] => false
  | p :: ps, c :: cs => p == c && listStarts ps cs

/-- Character-list substring test, used to embed Python `in` on strings. -/
def listHas : List Char → List Char → Bool
  | pat, [] => listStarts pat []
  | pat, c :: cs => listStarts pat (c :: cs) || listHas pat cs

/-- Embedding of Python `s.startswith(pat)`. -/
def pyStartsWith (s pat : String) : Bool :=
  listStarts pat.toList s.toList

/-- Embedding of Python `pat in s` (substring containment). -/
def pyHasSub (s pat : String) : Bool :=
  listHas pat.toList s.toList

/-- Embedding of Python `s.lower()` (ASCII case folding, which is all the
sources use it for). -/
def pyLower (s : String) : String :=
  String.mk (s.toList.map Char.toLower)

/-- Model of the Python values that flow through the tool layer: `None`,
strings, integers, lists and (string-keyed) dicts. -/
inductive PyVal where
  | none
  | str (s : String)
  | int (n : Int)
  | list (xs : List PyVal)
  | dict (fields : List (String × PyVal))

mutual

/-- Embedding of Python `repr` for the modelled values (container rendering
follows CPython's `', '` separators; escape sequences inside nested strings
are not modelled, no property below depends on them). -/
def pyRepr : PyVal → String
  | .none => "None"
  | .str s => "'" ++ s ++ "'"
  | .int n => toString n
  | .list xs => "[" ++ pyReprItems xs ++ "]"
  | .dict fs => "\x7b" ++ pyReprFields fs ++ "\x7d"

def pyReprItems : List PyVal → String
  | [] => ""
  | [x] => pyRepr x
  | x :: y :: xs => pyRepr x ++ ", " ++ pyReprItems (y :: xs)

def pyReprFields : List (String × PyVal) → String
  | [] => ""
  | [(k, v)] => "'" ++ k ++ "': " ++ pyRepr v
  | (k, v) :: f :: fs => "'" ++ k ++ "': " ++ pyRepr v ++ ", " ++ pyReprFields (f :: fs)

end

/-- Embedding of Python `str(v)`: identity on strings, `repr`-style rendering
otherwise. -/
def pyStr : PyVal → String
  | .str s => s
  | v => pyRepr v

/-- Python dict key lookup (`k in d` / `d[k]`) over the assoc-list model. -/
def lookupKey (k : String) : List (String × PyVal) → Option PyVal
  | [] => Option.none
  | (k', v) :: rest => if k' == k then Option.some v else lookupKey k rest

/-! ## A2A data model (common.types)

`TaskState`, message parts, `Message`, `Artifact` and the two streaming
event kinds, as consumed and produced by the task managers. -/

/-- The `common.types.TaskState` values the task managers use. -/
inductive TaskState where
  | submitted | working | completed | failed
deriving DecidableEq

/-- A message/artifact part: `TextPart` or `DataPart`. -/
inductive Part where
  | text (text : String)
  | data (data : PyVal)

/-- `common.types.Message` (role plus parts). -/
structure Message where
  role : String
  parts : List Part

/-- `common.types.Artifact` (the parts; no property uses the other fields). -/
structure Artifact where
  parts : List Part

/-- Shorthand for the `Message(role="agent", parts=[TextPart(text=t)])`
pattern used throughout both task managers. -/
def agentMsg (t : String) : Message :=
  { role := "agent", parts := [Part.text t] }

/-- One streaming event as put on the SSE stream by `_stream_generator`:
a `TaskStatusUpdateEvent`, a `TaskArtifactUpdateEvent`, or the JSON-RPC
`InternalError` response yielded on an internal exception. -/
inductive Event where
  | status (state : TaskState) (message : Option Message) (final : Bool)
  | artifact (a : Artifact)
  | rpcError (msg : String)

/-- What one `update_store(task_id, status, artifacts)` call persists for a
task: the status (state and optional message) and the optional artifacts. -/
structure StoreRecord where
  state : TaskState
  message : Option Message
  artifacts : Option (List Artifact)

/-- Result of driving a streaming generator to its end: the emitted events
in order and the final stored record (`none` when the generator never
reached an `update_store` call). -/
structure GenOut where
  events : List Event
  store : Option StoreRecord

/-! ## ADK summary agent task manager
(`src/adk_summary_agent/task_manager.py`)

The agent stream (`SummaryAgent.stream`) is external input: a list of the
yielded item dicts followed optionally by an exception (its type name).
An item dict carries `is_task_complete`, `content` (the properties below
concern string contents; the task manager's `str()` conversion makes the
model by strings faithful for them) and an optional `artifacts` payload
(`[]` models an absent or falsy payload; the payload entries are modelled
as already well-formed `Artifact`s, so the `try/except` around their
construction does not fire). -/

namespace AdkTM

/-- One item yielded by `SummaryAgent.stream`. -/
structure StreamItem where
  is_task_complete : Bool
  content : String
  artifacts : List Artifact

/-- The error-string sniffing test of `task_manager.py` lines 49 and 134:
`content.lower().startswith("error:") or "failed" in content.lower()`. -/
def errorSniff (content : String) : Bool :=
  pyStartsWith (pyLower content) "error:" || pyHasSub (pyLower content) "failed"

/-- The loop body of `AgentTaskManager._stream_generator` (lines 40-114).
First argument: the items the agent stream yields; second: an exception
(type name rendered as `str(e)` context) raised by the iteration after
those items, if any.  A terminal item breaks the loop, so later items and
a later exception are never consumed. -/
def streamLoop : List StreamItem → Option String → GenOut
  | [], Option.none => { events := [], store := Option.none }
  | [], Option.some e =>
      -- `except Exception` path: JSON-RPC error, store FAILED, final SSE event
      let failMsg := "Stream failed: " ++ e
      { events := [Event.rpcError ("An error occurred while streaming the response: " ++ e),
                   Event.status .failed (Option.some (agentMsg failMsg)) true],
        store := Option.some { state := .failed, message := Option.some (agentMsg failMsg),
                               artifacts := Option.none } }
  | item :: rest, exn =>
      let content := item.content
      let sniffed := errorSniff content
      -- `current_task_state`, after the error-sniff override
      let state : TaskState :=
        if sniffed then .failed else if item.is_task_complete then .completed else .working
      let is_complete := item.is_task_complete || sniffed
      -- `final_status` as built at yield time (message only when content truthy)
      let yieldMsg : Option Message :=
        if content == "" then Option.none else Option.some (agentMsg content)
      let statusEv := Event.status state yieldMsg is_complete
      -- artifact-update events for a truthy `artifacts` payload (after the status yield)
      let artifactEvs := item.artifacts.map Event.artifact
      if is_complete then
        -- terminal bookkeeping (lines 79-96), then `update_store` and `break`
        let stored : StoreRecord :=
          if state = .completed ∧ content ≠ "" then
            { state := state, message := yieldMsg,
              artifacts := Option.some [{ parts := [Part.text content] }] }
          else if state = .failed ∧ content ≠ "" then
            { state := state, message := Option.some (agentMsg content), artifacts := Option.none }
          else if state = .completed then
            { state := state, message := Option.some (agentMsg "Task finished."),
              artifacts := Option.none }
          else
            { state := state, message := yieldMsg, artifacts := Option.none }
        { events := statusEv :: artifactEvs, store := Option.some stored }
      else
        let restOut := streamLoop rest exn
        { events := statusEv :: (artifactEvs ++ restOut.events), store := restOut.store }

/-- `AgentTaskManager._stream_generator` over a whole agent run. -/
def streamGen (items : List StreamItem) (exn : Option String) : GenOut :=
  streamLoop items exn

/-- `AgentTaskManager.on_send_task` (lines 117-149): the stored terminal
record, as a function of the outcome of `self.agent.invoke` (`.ok content`
or `.error exceptionTypeName`). -/
def onSendTask : Except String String → StoreRecord
  | .ok content =>
      let state : TaskState := if errorSniff content then .failed else .completed
      { state := state,
        message := if state = .failed then Option.some (agentMsg content) else Option.none,
        artifacts :=
          if state = .completed then Option.some [{ parts := [Part.text content] }]
          else Option.none }
  | .error e =>
      { state := .failed, message := Option.some (agentMsg ("Failed: " ++ e)),
        artifacts := Option.none }

end AdkTM

/-! ## LangGraph YouTube agent task manager
(`src/agents/langgraph_youtube_agent/task_manager.py`)

The agent's content strings are fed to `json.loads`; the `json` library is
an external collaborator, so a content string is modelled together with its
parse outcome (`JParse`). -/

namespace LgTM

/-- Outcome of `json.loads` on a content string. -/
inductive JParse where
  | jlist (xs : List PyVal)
  | jother (tyName : String)
  | nojson

/-- A content string paired with what `json.loads` does with it. -/
structure JContent where
  raw : String
  parsed : JParse

/-- One item yielded by `YouTubeVideoAgent.stream`. -/
structure StreamItem where
  is_task_complete : Bool
  content : JContent

/-- `AgentTaskManager._parse_agent_result` (lines 30-67). -/
def parseAgentResult (c : JContent) : TaskState × List Artifact :=
  match c.parsed with
  | .jlist xs =>
      match xs with
      | PyVal.str s :: _ =>
          if pyStartsWith s "Error:" then
            (.failed, [{ parts := [Part.text s] }])
          else
            (.completed, [{ parts := [Part.data (PyVal.list xs)] }])
      | _ => (.completed, [{ parts := [Part.data (PyVal.list xs)] }])
  | .jother ty =>
      (.failed, [{ parts := [Part.text ("Error: Agent returned unexpected JSON type: " ++ ty)] }])
  | .nojson =>
      (.failed, [{ parts := [Part.text c.raw] }])

/-- The `try`-body of `_stream_generator` (lines 79-116): WORKING events for
non-terminal items, then the terminal state and artifacts as computed before
the `finally` block.  Third argument threads `final_result_content`. -/
def lgLoop : List StreamItem → Option String → Option JContent →
    List Event × TaskState × Option (List Artifact)
  | [], Option.none, lastContent =>
      match lastContent with
      | Option.some c =>
          let (st, arts) := parseAgentResult c
          ([], st, Option.some arts)
      | Option.none =>
          ([], .failed,
           Option.some [{ parts := [Part.text "Error: Agent stream ended without final output."] }])
  | [], Option.some e, _ =>
      -- `except Exception` path: JSON-RPC error, FAILED with a text artifact
      ([Event.rpcError ("An error occurred while streaming the response: " ++ e)],
       .failed, Option.some [{ parts := [Part.text ("Stream failed: " ++ e)] }])
  | item :: rest, exn, _ =>
      if item.is_task_complete then
        -- `break`: the final content is this item's content
        let (st, arts) := parseAgentResult item.content
        ([], st, Option.some arts)
      else
        let (evs, st, arts) := lgLoop rest exn (Option.some item.content)
        (Event.status .working (Option.some (agentMsg item.content.raw)) false :: evs, st, arts)

/-- The `finally` block of `_stream_generator` (lines 117-138): builds the
final status, stores it (artifacts only when COMPLETED), yields artifact
events when COMPLETED, and always yields the final status event. -/
def lgFinally (st : TaskState) (arts : Option (List Artifact)) : List Event × StoreRecord :=
  let msg : Option Message :=
    match st, arts with
    | .failed, Option.some (a :: _) =>
        match a.parts with
        | Part.text _ :: _ => Option.some { role := "agent", parts := a.parts }
        | _ => Option.none
    | _, _ => Option.none
  let storeArts : Option (List Artifact) := if st = .completed then arts else Option.none
  let artifactEvs : List Event :=
    if st = .completed then (arts.getD []).map Event.artifact else []
  (artifactEvs ++ [Event.status st msg true],
   { state := st, message := msg, artifacts := storeArts })

/-- `AgentTaskManager._stream_generator` over a whole agent run. -/
def streamGen (items : List StreamItem) (exn : Option String) : GenOut :=
  let (evs, st, arts) := lgLoop items exn Option.none
  let (fevs, store) := lgFinally st arts
  { events := evs ++ fevs, store := Option.some store }

/-- `AgentTaskManager.on_send_task` (lines 141-170): the stored terminal
record as a function of the outcome of `self.agent.invoke`. -/
def onSendTask : Except String JContent → StoreRecord
  | .ok c =>
      let (st, arts) := parseAgentResult c
      let msg : Option Message :=
        match st, arts with
        | .completed, _ => Option.none
        | _, a :: _ =>
            match a.parts with
            | Part.text _ :: _ => Option.some { role := "agent", parts := a.parts }
            | _ => Option.none
        | _, [] => Option.none
      { state := st, message := msg,
        artifacts := if st = .completed then Option.some arts else Option.none }
  | .error e =>
      { state := .failed, message := Option.some (agentMsg ("Failed: " ++ e)),
        artifacts := Option.none }

end LgTM

/-! ## Tool invocation layer

Each tool function performs one remote call; the call's outcome is the
input of the embedding (`.ok value` for a returned value, `.error name`
for a raised exception rendered by its type name).  A result of
`.ok v : Except String α` means the Python function returns `v`; a result
of `.error e` means the exception propagates out of the function.
Session acquire/release around the call is modelled separately (see the
session-pool section); `release` sits in a `finally` and runs on every
path of every variant. -/

/-! ### Tools of `src/agents/adk_summary_agent/tools.py` -/
namespace AgentsAdkTools

/-- Response parsing of `summarize_video` (lines 109-117). -/
def summarizeVideoParse (result : PyVal) : String :=
  match result with
  | .dict fs =>
      match lookupKey "summary" fs with
      | Option.some v => pyStr v
      | Option.none =>
          match lookupKey "error" fs with
          | Option.some err => "Error from summarize_video: " ++ pyStr err
          | Option.none => "Error: Unexpected result format from get_youtube_video_summary"
  | _ => "Error: Unexpected result format from get_youtube_video_summary"

/-- `summarize_video` (lines 94-123): parse on success, caught exception
converted to an error string. -/
def summarize_video (callOutcome : Except String PyVal) : Except String String :=
  match callOutcome with
  | .ok r => .ok (summarizeVideoParse r)
  | .error e => .ok ("Error contacting summarization service: " ++ e)

/-- Response parsing of `combine_summaries` (lines 141-158). -/
def combineSummariesParse (result : PyVal) : String :=
  match result with
  | .dict fs =>
      match lookupKey "final_summary" fs with
      | Option.some v => pyStr v
      | Option.none =>
          match lookupKey "error" fs with
          | Option.some err => "Error from combine_summaries: " ++ pyStr err
          | Option.none =>
              if fs.isEmpty then "Successfully combined summaries (no text returned)."
              else "Error: Unexpected result format from generate_final_summary"
  | .str s => s
  | _ => "Error: Unexpected result format from generate_final_summary"

/-- `combine_summaries` (lines 126-163). -/
def combine_summaries (callOutcome : Except String PyVal) : Except String String :=
  match callOutcome with
  | .ok r => .ok (combineSummariesParse r)
  | .error e => .ok ("Error contacting final summary service: " ++ e)

end AgentsAdkTools

/-! ### Tools of `src/agents/langgraph_youtube_agent/tools.py` -/
namespace AgentsLgTools

/-- Response parsing of `get_channel_videos` (lines 108-123). -/
def channelVideosParse (result : PyVal) : List String :=
  match result with
  | .dict fs =>
      match lookupKey "video_urls" fs with
      | Option.some (.list urls) => urls.map pyStr
      | _ =>
          match lookupKey "error" fs with
          | Option.some err => ["Error from get_channel_videos: " ++ pyStr err]
          | Option.none => [pyStr (.dict fs)]
  | .none => []
  | r => [pyStr r]

/-- `get_channel_videos` (lines 93-128): every exception from the call is
caught and converted. -/
def get_channel_videos (callOutcome : Except String PyVal) : Except String (List String) :=
  match callOutcome with
  | .ok r => .ok (channelVideosParse r)
  | .error e => .ok ["Error contacting video finding service: " ++ e]

/-- Response parsing of `get_playlist_videos` (lines 146-166). -/
def playlistVideosParse (result : PyVal) : List String :=
  match result with
  | .dict fs =>
      match lookupKey "video_urls" fs with
      | Option.some (.list urls) => urls.map pyStr
      | _ =>
          match lookupKey "error" fs with
          | Option.some err => ["Error from get_playlist_videos: " ++ pyStr err]
          | Option.none => [pyStr (.dict fs)]
  | .none => []
  | .list xs => xs.map pyStr
  | r => [pyStr r]

/-- `get_playlist_videos` (lines 131-171). -/
def get_playlist_videos (callOutcome : Except String PyVal) : Except String (List String) :=
  match callOutcome with
  | .ok r => .ok (playlistVideosParse r)
  | .error e => .ok ["Error contacting playlist service: " ++ e]

end AgentsLgTools

/-! ### Tools of `src/langgraph_youtube_agent/tools.py` -/
namespace SrcLgTools

/-- Result coercion shared by both functions (lines 77-83 / 100-106). -/
def listCoerce (result : PyVal) : List String :=
  match result with
  | .list xs => xs.map pyStr
  | .none => []
  | r => [pyStr r]

/-- `get_channel_videos` (lines 65-86): the `except` branch logs and
re-raises, so an exception from the call propagates to the caller. -/
def get_channel_videos (callOutcome : Except String PyVal) : Except String (List String) :=
  match callOutcome with
  | .ok r => .ok (listCoerce r)
  | .error e => .error e

/-- `get_playlist_videos` (lines 88-109): same re-raise on exception. -/
def get_playlist_videos (callOutcome : Except String PyVal) : Except String (List String) :=
  match callOutcome with
  | .ok r => .ok (listCoerce r)
  | .error e => .error e

end SrcLgTools

/-! ### Tools of `src/adk_summary_agent/tools.py` -/
namespace SrcAdkTools

/-- `summarize_video` (lines 69-87): takes the video id (used in the error
string) and the outcome of `run_async`. -/
def summarize_video (videoId : String) (callOutcome : Except String PyVal) :
    Except String String :=
  match callOutcome with
  | .ok r =>
      match r with
      | .dict fs =>
          match lookupKey "summary" fs with
          | Option.some v => .ok (pyStr v)
          | Option.none => .ok (pyStr r)
      | _ => .ok (pyStr r)
  | .error e => .ok ("Error: Failed to summarize video " ++ videoId ++ " - " ++ e)

/-- `combine_summaries` (lines 90-108). -/
def combine_summaries (callOutcome : Except String PyVal) : Except String String :=
  match callOutcome with
  | .ok r =>
      match r with
      | .dict fs =>
          match lookupKey "combined_summary" fs with
          | Option.some v => .ok (pyStr v)
          | Option.none => .ok (pyStr r)
      | _ => .ok (pyStr r)
  | .error e => .ok ("Error: Failed to combine summaries - " ++ e)

end SrcAdkTools

/-! ## Remote delegate client (`find_videos_via_a2a`)

The peer's `send_task` response is modelled by its terminal state, the
first text of its status message (when present) and its artifacts.  A
`TextPart`'s text is modelled together with its `json.loads` outcome
(`TContent`); the `json` library itself is an external collaborator. -/

namespace A2A

/-- Text content of a `TextPart` paired with its `json.loads` outcome. -/
inductive TContent where
  | json (v : PyVal)
  | raw (s : String)

/-- An artifact part of the peer response. -/
inductive RespPart where
  | data (d : PyVal)
  | text (t : TContent)

/-- An artifact of the peer response. -/
structure RespArtifact where
  parts : List RespPart

/-- The peer response: `result.status.state`, the first text of
`result.status.message` when a message is present, and `result.artifacts`
(`[]` models both a missing and an empty artifact list, which are equally
falsy in the sources). -/
structure Response where
  state : TaskState
  statusMessage : Option String
  artifacts : List RespArtifact

/-- Rendering of a `TaskState` in an f-string (`f"{state}"`); only used
inside error messages, no property depends on the exact enum rendering. -/
def stateRendered : TaskState → String
  | .submitted => "TaskState.SUBMITTED"
  | .working => "TaskState.WORKING"
  | .completed => "TaskState.COMPLETED"
  | .failed => "TaskState.FAILED"

/-- `video_ids[0].startswith("Error:")` over a stringified id list. -/
def headStrError : List PyVal → Bool
  | PyVal.str s :: _ => pyStartsWith s "Error:"
  | _ => false

/-- The part loop of `find_videos_via_a2a` in
`src/agents/adk_summary_agent/tools.py` (lines 188-216), over the parts of
all artifacts in order (`for artifact ...: for part ...`).  Returns the
list the Python function returns from inside the loop, or `none` when the
loop falls through. -/
def partsLoopA : List RespPart → Option (List PyVal)
  | [] => Option.none
  | RespPart.data (.list xs) :: _ =>
      let video_ids := xs.map (fun item => PyVal.str (pyStr item))
      -- both branches return `video_ids`; the error branch only logs
      if headStrError video_ids then Option.some video_ids else Option.some video_ids
  | RespPart.data _ :: rest => partsLoopA rest
  | RespPart.text (.json (.list xs)) :: _ =>
      let video_ids := xs.map (fun item => PyVal.str (pyStr item))
      if headStrError video_ids then Option.some video_ids else Option.some video_ids
  | RespPart.text (.json _) :: rest => partsLoopA rest
  | RespPart.text (.raw s) :: rest =>
      if pyStartsWith s "Error:" then Option.some [PyVal.str s] else partsLoopA rest

/-- `find_videos_via_a2a` of `src/agents/adk_summary_agent/tools.py`
(lines 166-230), as a function of the peer response.  (The surrounding
`except` branch for transport errors is not reached when a response
arrives.)  The return value is kept as Python values because the sibling
version can return unstringified JSON items. -/
def findVideosViaA2aAgents (resp : Response) : List PyVal :=
  if resp.state = .completed ∧ resp.artifacts.isEmpty = false then
    match partsLoopA (resp.artifacts.flatMap (fun a => a.parts)) with
    | Option.some ids => ids
    | Option.none => [PyVal.str "Error: YouTube agent returned no valid video list."]
  else if resp.state = .failed then
    [PyVal.str ("Error: YouTube agent task failed: " ++ resp.statusMessage.getD "Unknown reason")]
  else
    [PyVal.str ("Error: Unexpected response state from YouTube agent: "
        ++ stateRendered resp.state)]

/-- `data and isinstance(data[0], str) and data[0].startswith("Error:")`
on a freshly decoded JSON list. -/
def headJsonError : List PyVal → Bool
  | PyVal.str s :: _ => pyStartsWith s "Error:"
  | _ => false

/-- The part loop of `find_videos_via_a2a` in
`src/adk_summary_agent/tools.py` (lines 134-163); `acc` threads the
`video_ids` accumulator that lives across parts. -/
def partsLoopB (acc : List PyVal) : List RespPart → Option (List PyVal)
  | [] => Option.none
  | RespPart.data (.list xs) :: _ =>
      Option.some (acc ++ xs.map (fun item => PyVal.str (pyStr item)))
  | RespPart.data _ :: rest => partsLoopB acc rest
  | RespPart.text (.json (.list xs)) :: _ =>
      if headJsonError xs then
        Option.some xs  -- `return data`: the decoded items, unstringified
      else
        Option.some (acc ++ xs.map (fun item => PyVal.str (pyStr item)))
  | RespPart.text (.json _) :: rest => partsLoopB acc rest
  | RespPart.text (.raw s) :: rest =>
      if pyStartsWith s "Error:" then Option.some [PyVal.str s] else partsLoopB acc rest

/-- `find_videos_via_a2a` of `src/adk_summary_agent/tools.py`
(lines 111-178), as a function of the peer response. -/
def findVideosViaA2aSrc (resp : Response) : List PyVal :=
  if resp.state = .completed ∧ resp.artifacts.isEmpty = false then
    match partsLoopB [] (resp.artifacts.flatMap (fun a => a.parts)) with
    | Option.some ids => ids
    | Option.none => [PyVal.str "Error: YouTube agent returned no parsable video list."]
  else if resp.state = .failed then
    [PyVal.str ("Error: YouTube agent task failed: " ++ resp.statusMessage.getD "Unknown reason")]
  else
    [PyVal.str ("Error: Unexpected response state from YouTube agent: "
        ++ stateRendered resp.state)]

end A2A

/-! ## MCP session pool

`get_mcp_session` / `release_mcp_session` of
`src/agents/langgraph_youtube_agent/tools.py` (lines 24-77).  The
summary-agent pool (`get_summary_mcp_session` / `release_summary_mcp_session`
in `src/agents/adk_summary_agent/tools.py`, lines 27-78) has the identical
locking, initialization, rollback and release logic over its own three
dictionaries, so the one model covers both.

The pool is driven from a single-threaded cooperative scheduler; the
properties below concern a single caller running to completion, so the
per-endpoint `asyncio.Lock` acquire/release is not interleaved and only
the lock dictionary's bookkeeping is observable.  An `await` that can
never be fulfilled by the single caller (queue `get` on an empty queue,
`put` on a full `maxsize=1` queue) is modelled as a distinguished
would-block outcome.  Connection establishment
(`MCPSessionManager.create_session`) is external: its outcome is an input
(`.ok` hands out a fresh handle, `.error` the raised exception), and
`connectCalls` counts the establishment attempts. -/

namespace Pool

/-- Endpoint-keyed queue map (`_mcp_sessions`); handles are numbered. -/
def SessionMap := List (String × List Nat)

/-- `url in _mcp_sessions`. -/
def hasKey (k : String) : List (String × List Nat) → Bool
  | [] => false
  | (k', _) :: rest => k' == k || hasKey k rest

/-- Queue of an endpoint (`_mcp_sessions[url]`'s contents, front first). -/
def getQueue (k : String) : List (String × List Nat) → List Nat
  | [] => []
  | (k', q) :: rest => if k' == k then q else getQueue k rest

/-- Assignment `_mcp_sessions[url] = queue` (overwrite or append). -/
def setQueue (k : String) (q : List Nat) : List (String × List Nat) → List (String × List Nat)
  | [] => [(k, q)]
  | (k', q') :: rest => if k' == k then (k, q) :: rest else (k', q') :: setQueue k q rest

/-- `del _mcp_sessions[url]`. -/
def delKey (k : String) (m : List (String × List Nat)) : List (String × List Nat) :=
  m.filter (fun p => p.1 != k)

/-- Membership in a plain key list (locks / exit stacks). -/
def memStr (k : String) : List String → Bool
  | [] => false
  | x :: xs => x == k || memStr k xs

/-- `del` on a plain key list. -/
def delStr (k : String) (l : List String) : List String :=
  l.filter (fun x => x != k)

/-- The module-level pool state: `_mcp_session_locks`, `_mcp_sessions`,
`_mcp_stacks`, plus the next fresh handle id and the number of connection
establishments attempted. -/
structure PoolState where
  locks : List String
  sessions : List (String × List Nat)
  exitStacks : List String
  nextHandle : Nat
  connectCalls : Nat
deriving DecidableEq

/-- The empty module state at import time. -/
def emptyPool : PoolState :=
  { locks := [], sessions := [], exitStacks := [], nextHandle := 0, connectCalls := 0 }

/-- Outcome of one `get_mcp_session` call. -/
inductive AcquireResult where
  | ok (handle : Nat)
  | connectError (e : String)
  | wouldBlock
deriving DecidableEq

/-- The final `_mcp_sessions[url].get()` of `get_mcp_session`. -/
def queueGet (url : String) (s : PoolState) : PoolState × AcquireResult :=
  match getQueue url s.sessions with
  | [] => (s, .wouldBlock)
  | h :: rest => ({ s with sessions := setQueue url rest s.sessions }, .ok h)

/-- Lines 26-27 of `get_mcp_session`: ensure the per-endpoint lock exists. -/
def ensureLock (url : String) (s : PoolState) : PoolState :=
  if memStr url s.locks then s else { s with locks := s.locks ++ [url] }

/-- `get_mcp_session(url)` (lines 24-72) for one caller; `connect` is the
outcome of `MCPSessionManager.create_session`. -/
def getMcpSession (url : String) (connect : Except String Unit) (s0 : PoolState) :
    PoolState × AcquireResult :=
  let s := ensureLock url s0
  -- the body below runs under that lock
  if hasKey url s.sessions then
    queueGet url s
  else
    -- first acquire: create the queue (maxsize 1) and the exit stack
    let s1 := { s with sessions := setQueue url [] s.sessions,
                       exitStacks := if memStr url s.exitStacks then s.exitStacks else s.exitStacks ++ [url] }
    match connect with
    | .error e =>
        -- rollback (lines 60-68): close/del the stack, del the queue, re-raise;
        -- the lock entry is not touched
        ({ s1 with exitStacks := delStr url s1.exitStacks, sessions := delKey url s1.sessions,
                   connectCalls := s1.connectCalls + 1 }, .connectError e)
    | .ok _ =>
        -- create_session succeeded: put the new session, then fall through to get
        let h := s1.nextHandle
        let s2 := { s1 with nextHandle := h + 1, connectCalls := s1.connectCalls + 1,
                            sessions := setQueue url [h] s1.sessions }
        queueGet url s2

/-- `release_mcp_session(url, session)` (lines 74-77); `none` models a
`put` that would suspend forever (queue already at `maxsize=1`). -/
def releaseMcpSession (url : String) (handle : Nat) (s : PoolState) : Option PoolState :=
  if hasKey url s.sessions then
    if (getQueue url s.sessions).length ≥ 1 then Option.none
    else Option.some { s with sessions := setQueue url (getQueue url s.sessions ++ [handle]) s.sessions }
  else Option.some s

end Pool

/-! ## Vocabulary for the properties -/

/-- Is this event a status update flagged `final=True`? -/
def isFinalStatus : Event → Bool
  | .status _ _ f => f
  | _ => false

/-- Is this event a status update at all? -/
def isStatusEv : Event → Bool
  | .status _ _ _ => true
  | _ => false

/-- Is this event an artifact update? -/
def isArtifactEv : Event → Bool
  | .artifact _ => true
  | _ => false

/-- Number of `final=True` status updates in a stream. -/
def finalCount (evs : List Event) : Nat :=
  (evs.filter isFinalStatus).length

/-- No status update is emitted after a `final=True` status update. -/
def noStatusAfterFinal : List Event → Bool
  | [] => true
  | e :: rest =>
      if isFinalStatus e then rest.all (fun x => !(isStatusEv x))
      else noStatusAfterFinal rest

/-- Every `final=True` status update carries a terminal state. -/
def finalsTerminal (evs : List Event) : Bool :=
  evs.all (fun e =>
    match e with
    | .status .completed _ true => true
    | .status .failed _ true => true
    | .status _ _ true => false
    | _ => true)

/-- Does the ADK agent run reach a terminal iteration (a yielded item that
is complete or sniffs as an error, or an exception)? -/
def adkTerminates (items : List AdkTM.StreamItem) (exn : Option String) : Bool :=
  items.any (fun it => it.is_task_complete || AdkTM.errorSniff it.content) || exn.isSome

/-- A stored record holds a present, non-empty artifact list. -/
def hasArtifacts (r : StoreRecord) : Bool :=
  match r.artifacts with
  | Option.some (_ :: _) => true
  | _ => false

/-- The spec's tagged-union tool result. -/
inductive ToolResult where
  | success (v : String)
  | failure (msg : String)
deriving DecidableEq

/-- Modelled from the spec: the §4.2 normalization policy — "known success
key → `Success`; known error key → `Failure(message)`; bare scalar →
`Success(scalar)` coerced to the expected type; anything else →
`Failure(\"unexpected result format\")`" — for comparison against the
parsers embedded from `src/agents/adk_summary_agent/tools.py`. -/
def specNormalize (successKey : String) (result : PyVal) : ToolResult :=
  match result with
  | .dict fs =>
      match lookupKey successKey fs with
      | Option.some v => .success (pyStr v)
      | Option.none =>
          match lookupKey "error" fs with
          | Option.some err => .failure (pyStr err)
          | Option.none => .failure "unexpected result format"
  | .str s => .success s
  | .int n => .success (toString n)
  | _ => .failure "unexpected result format"

namespace A2A

/-- A COMPLETED peer response carrying a string list as one structured
`DataPart`. -/
def dataShape (L : List String) : Response :=
  { state := .completed, statusMessage := Option.none,
    artifacts := [{ parts := [RespPart.data (PyVal.list (L.map PyVal.str))] }] }

/-- A COMPLETED peer response carrying the same list JSON-encoded in one
`TextPart` (`json.loads(json.dumps(L)) = L` is the collaborating `json`
library's round-trip contract). -/
def textShape (L : List String) : Response :=
  { state := .completed, statusMessage := Option.none,
    artifacts := [{ parts := [RespPart.text (TContent.json (PyVal.list (L.map PyVal.str)))] }] }

/-- A nominally COMPLETED peer response with no artifacts at all. -/
def emptyCompletedResp : Response :=
  { state := .completed, statusMessage := Option.none, artifacts := [] }

/-- A part from which neither loop can extract a video list: a `DataPart`
whose payload is not a list, a `TextPart` whose JSON decode is not a list,
or a non-JSON `TextPart` that does not start with `"Error:"`. -/
def unparsablePart : RespPart → Bool
  | .data (.list _) => false
  | .data _ => true
  | .text (.json (.list _)) => false
  | .text (.json _) => true
  | .text (.raw s) => !(pyStartsWith s "Error:")

end A2A

/-! # Theorems -/

/-! ## Session pool lemmas -/

namespace Pool

theorem memStr_append_self (k : String) (l : List String) : memStr k (l ++ [k]) = true := by
induction l with
| nil => simp [memStr]
| cons x xs ih => simp [memStr, ih]

theorem memStr_delStr (k : String) (l : List String) : memStr k (delStr k l) = false := by
induction l with
| nil => rfl
| cons x xs ih =>
  by_cases h : x = k
  · simpa [delStr, List.filter_cons, h] using ih
  · simp only [delStr, List.filter_cons] at ih ⊢
    simp [h, memStr, ih]

theorem hasKey_delKey (k : String) (m : List (String × List Nat)) :
    hasKey k (delKey k m) = false := by
induction m with
| nil => rfl
| cons p rest ih =>
  by_cases h : p.1 = k
  · simpa [delKey, List.filter_cons, h] using ih
  · simp only [delKey, List.filter_cons] at ih ⊢
    simp [h, hasKey, ih]

theorem getQueue_setQueue_same (k : String) (q : List Nat) (m : List (String × List Nat)) :
    getQueue k (setQueue k q m) = q := by
induction m with
| nil => simp [setQueue, getQueue]
| cons p rest ih =>
  by_cases h : p.1 = k
  · simp [setQueue, h, getQueue]
  · simp [setQueue, h, getQueue, ih]

theorem hasKey_setQueue_same (k : String) (q : List Nat) (m : List (String × List Nat)) :
    hasKey k (setQueue k q m) = true := by
induction m with
| nil => simp [setQueue, hasKey]
| cons p rest ih =>
  by_cases h : p.1 = k
  · simp [setQueue, h, hasKey]
  · simp [setQueue, h, hasKey, ih]

theorem setQueue_setQueue_same (k : String) (q q' : List Nat) (m : List (String × List Nat)) :
    setQueue k q (setQueue k q' m) = setQueue k q m := by
induction m with
| nil => simp [setQueue]
| cons p rest ih =>
  by_cases h : p.1 = k
  · simp [setQueue, h]
  · simp [setQueue, h, ih]

theorem ensureLock_sessions (url : String) (s : PoolState) :
    (ensureLock url s).sessions = s.sessions := by
unfold ensureLock; split <;> rfl

theorem ensureLock_exitStacks (url : String) (s : PoolState) :
    (ensureLock url s).exitStacks = s.exitStacks := by
unfold ensureLock; split <;> rfl

theorem ensureLock_nextHandle (url : String) (s : PoolState) :
    (ensureLock url s).nextHandle = s.nextHandle := by
unfold ensureLock; split <;> rfl

theorem ensureLock_connectCalls (url : String) (s : PoolState) :
    (ensureLock url s).connectCalls = s.connectCalls := by
unfold ensureLock; split <;> rfl

theorem ensureLock_locks_mem (url : String) (s : PoolState) :
    memStr url (ensureLock url s).locks = true := by
unfold ensureLock
split
· assumption
· exact memStr_append_self url s.locks

theorem ensureLock_of_mem (url : String) (s : PoolState) (h : memStr url s.locks = true) :
    ensureLock url s = s := by
unfold ensureLock; simp [h]

end Pool

/-- **C10**: releasing a session for an endpoint that has no pool entry is a
silent no-op — the handle is dropped, the pool state is unchanged, and no
error or suspension occurs. -/
theorem release_without_pool_entry_is_noop (s : Pool.PoolState) (url : String) (h : Nat)
    (hmiss : Pool.hasKey url s.sessions = false) :
    Pool.releaseMcpSession url h s = Option.some s := by
simp [Pool.releaseMcpSession, hmiss]

/-- Witness for `release_without_pool_entry_is_noop` at the import-time
empty pool. -/
theorem release_without_pool_entry_is_noop_witness :
    Pool.hasKey "http://mcp" Pool.emptyPool.sessions = false ∧
    Pool.releaseMcpSession "http://mcp" 7 Pool.emptyPool = Option.some Pool.emptyPool :=
  ⟨rfl, release_without_pool_entry_is_noop Pool.emptyPool "http://mcp" 7 rfl⟩

/-- **C8 counterexample**: after a failed connection establishment on the
first acquire for a fresh endpoint, the per-endpoint lock entry is still
registered — contrary to the claim that *all* partial state including the
lock is removed. -/
theorem pool_connect_failure_keeps_lock :
    Pool.getMcpSession "http://mcp" (.error "ConnectionError") Pool.emptyPool =
      ({ locks := ["http://mcp"], sessions := [], exitStacks := [],
         nextHandle := 0, connectCalls := 1 }, .connectError "ConnectionError") ∧
    Pool.memStr "http://mcp"
      (Pool.getMcpSession "http://mcp" (.error "ConnectionError") Pool.emptyPool).1.locks = true :=
  ⟨rfl, rfl⟩

/-- **C8 amended**: if connection establishment fails during the first
acquire for an endpoint, the session queue and the exit-stack bookkeeping
are removed and the error is re-raised to the acquirer after exactly one
establishment attempt (no retry, no handle created) — but the per-endpoint
lock entry remains registered. -/
theorem pool_connect_failure_rollback (s : Pool.PoolState) (url e : String)
    (hmiss : Pool.hasKey url s.sessions = false) :
    (Pool.getMcpSession url (.error e) s).2 = .connectError e ∧
    Pool.hasKey url (Pool.getMcpSession url (.error e) s).1.sessions = false ∧
    Pool.memStr url (Pool.getMcpSession url (.error e) s).1.exitStacks = false ∧
    Pool.memStr url (Pool.getMcpSession url (.error e) s).1.locks = true ∧
    (Pool.getMcpSession url (.error e) s).1.connectCalls = s.connectCalls + 1 ∧
    (Pool.getMcpSession url (.error e) s).1.nextHandle = s.nextHandle := by
have hsess : Pool.hasKey url (Pool.ensureLock url s).sessions = false := by
  rw [Pool.ensureLock_sessions]; exact hmiss
refine ⟨?_, ?_, ?_, ?_, ?_, ?_⟩ <;>
  simp [Pool.getMcpSession, hsess, Pool.hasKey_delKey, Pool.memStr_delStr,
    Pool.ensureLock_locks_mem, Pool.ensureLock_connectCalls, Pool.ensureLock_nextHandle]

/-- Witness for `pool_connect_failure_rollback` at the empty pool. -/
theorem pool_connect_failure_rollback_witness :
    Pool.hasKey "http://mcp" Pool.emptyPool.sessions = false ∧
    ((Pool.getMcpSession "http://mcp" (.error "Boom") Pool.emptyPool).2 =
        .connectError "Boom" ∧
      Pool.hasKey "http://mcp"
        (Pool.getMcpSession "http://mcp" (.error "Boom") Pool.emptyPool).1.sessions = false ∧
      Pool.memStr "http://mcp"
        (Pool.getMcpSession "http://mcp" (.error "Boom") Pool.emptyPool).1.exitStacks = false ∧
      Pool.memStr "http://mcp"
        (Pool.getMcpSession "http://mcp" (.error "Boom") Pool.emptyPool).1.locks = true ∧
      (Pool.getMcpSession "http://mcp" (.error "Boom") Pool.emptyPool).1.connectCalls =
        Pool.emptyPool.connectCalls + 1 ∧
      (Pool.getMcpSession "http://mcp" (.error "Boom") Pool.emptyPool).1.nextHandle =
        Pool.emptyPool.nextHandle) :=
  ⟨rfl, pool_connect_failure_rollback Pool.emptyPool "http://mcp" "Boom" rfl⟩

/-- **C5 counterexample**: in `src/langgraph_youtube_agent/tools.py` both
tool functions re-raise an exception from the remote call (for the sync
wrapper to catch), so the exception does propagate past the
tool-invocation boundary. -/
theorem src_lg_tools_reraise :
    SrcLgTools.get_channel_videos (.error "TimeoutError") = .error "TimeoutError" ∧
    SrcLgTools.get_playlist_videos (.error "TimeoutError") = .error "TimeoutError" :=
  ⟨rfl, rfl⟩

/-- **C5 amended**: exceptions from the remote call are caught inside the
tool function and converted to an error-string value in the
`src/agents/langgraph_youtube_agent`, `src/agents/adk_summary_agent` and
`src/adk_summary_agent` tool modules; in `src/langgraph_youtube_agent/tools.py`,
`get_channel_videos` and `get_playlist_videos` instead log and re-raise,
leaving the catch to their synchronous wrappers. -/
theorem tool_call_exception_handling (e vid : String) :
    AgentsLgTools.get_channel_videos (.error e) =
      .ok ["Error contacting video finding service: " ++ e] ∧
    AgentsLgTools.get_playlist_videos (.error e) =
      .ok ["Error contacting playlist service: " ++ e] ∧
    AgentsAdkTools.summarize_video (.error e) =
      .ok ("Error contacting summarization service: " ++ e) ∧
    AgentsAdkTools.combine_summaries (.error e) =
      .ok ("Error contacting final summary service: " ++ e) ∧
    SrcAdkTools.summarize_video vid (.error e) =
      .ok ("Error: Failed to summarize video " ++ vid ++ " - " ++ e) ∧
    SrcAdkTools.combine_summaries (.error e) =
      .ok ("Error: Failed to combine summaries - " ++ e) ∧
    SrcLgTools.get_channel_videos (.error e) = .error e ∧
    SrcLgTools.get_playlist_videos (.error e) = .error e :=
  ⟨rfl, rfl, rfl, rfl, rfl, rfl, rfl, rfl⟩

/-- **C3**: in both the one-shot and the streaming handler of the summary
agent, a content string that case-insensitively begins with `"error:"` or
contains `"failed"` forces the FAILED state even though no exception
occurred; otherwise the state follows the agent's completion flag
(one-shot results are COMPLETED, stream items COMPLETED/WORKING by flag). -/
theorem adk_error_sniff_forces_failed (content : String) (flag : Bool)
    (payload : List Artifact) (rest : List AdkTM.StreamItem) (exn : Option String) :
    (AdkTM.errorSniff content =
      (pyStartsWith (pyLower content) "error:" || pyHasSub (pyLower content) "failed")) ∧
    (AdkTM.errorSniff content = true →
      (AdkTM.onSendTask (.ok content)).state = .failed ∧
      (AdkTM.streamGen (⟨flag, content, payload⟩ :: rest) exn).events.head? =
        Option.some (Event.status .failed
          (if content == "" then Option.none else Option.some (agentMsg content)) true)) ∧
    (AdkTM.errorSniff content = false →
      (AdkTM.onSendTask (.ok content)).state = .completed ∧
      (AdkTM.streamGen (⟨flag, content, payload⟩ :: rest) exn).events.head? =
        Option.some (Event.status (if flag then .completed else .working)
          (if content == "" then Option.none else Option.some (agentMsg content)) flag)) := by
refine ⟨rfl, ?_, ?_⟩ <;> intro h <;>
  cases flag <;>
    simp [AdkTM.streamGen, AdkTM.streamLoop, AdkTM.onSendTask, h]

/-- Witness for `adk_error_sniff_forces_failed`: a content string with the
marker is forced FAILED, one without follows the completion flag. -/
theorem adk_error_sniff_forces_failed_witness :
    (AdkTM.errorSniff "Error: no videos found" = true ∧
      (AdkTM.onSendTask (.ok "Error: no videos found")).state = .failed) ∧
    (AdkTM.errorSniff "Here is the summary." = false ∧
      (AdkTM.onSendTask (.ok "Here is the summary.")).state = .completed) := by
refine ⟨⟨by decide, ?_⟩, ⟨by decide, ?_⟩⟩
· exact ((adk_error_sniff_forces_failed "Error: no videos found" false [] []
    Option.none).2.1 (by decide)).1
· exact ((adk_error_sniff_forces_failed "Here is the summary." false [] []
    Option.none).2.2 (by decide)).1

/-- **C4 counterexample**: the spec's policy sends a bare scalar to
`Success(scalar)`, but `summarize_video` in
`src/agents/adk_summary_agent/tools.py` has no bare-scalar branch: a bare
string response produces the "unexpected result format" failure string
instead of the scalar itself. -/
theorem summarize_bare_scalar_not_success :
    specNormalize "summary" (PyVal.str "a plain summary") = .success "a plain summary" ∧
    AgentsAdkTools.summarizeVideoParse (PyVal.str "a plain summary") =
      "Error: Unexpected result format from get_youtube_video_summary" ∧
    AgentsAdkTools.summarizeVideoParse (PyVal.str "a plain summary") ≠ "a plain summary" := by
refine ⟨rfl, rfl, ?_⟩
decide

/-- **C4 amended**: for keyed structures both parsers follow the spec's
policy (success key first, then error key, with a tool-specific prefix on
failure messages).  For bare scalars: `combine_summaries` accepts only a
bare *string* as `Success(scalar)` and fails on other scalars, while
`summarize_video` fails on every non-keyed shape, and `combine_summaries`
maps an empty keyed structure to a success placeholder instead of the
unexpected-format failure. -/
theorem summarize_combine_normalization (fs : List (String × PyVal)) (s : String) (n : Int) :
    (∀ v, lookupKey "summary" fs = Option.some v →
      AgentsAdkTools.summarizeVideoParse (.dict fs) = pyStr v) ∧
    (lookupKey "summary" fs = Option.none → ∀ er, lookupKey "error" fs = Option.some er →
      AgentsAdkTools.summarizeVideoParse (.dict fs) =
        "Error from summarize_video: " ++ pyStr er) ∧
    (lookupKey "summary" fs = Option.none → lookupKey "error" fs = Option.none →
      fs.isEmpty = false →
      AgentsAdkTools.summarizeVideoParse (.dict fs) =
        "Error: Unexpected result format from get_youtube_video_summary") ∧
    AgentsAdkTools.summarizeVideoParse (.str s) =
      "Error: Unexpected result format from get_youtube_video_summary" ∧
    AgentsAdkTools.summarizeVideoParse (.int n) =
      "Error: Unexpected result format from get_youtube_video_summary" ∧
    AgentsAdkTools.combineSummariesParse (.str s) = s ∧
    AgentsAdkTools.combineSummariesParse (.int n) =
      "Error: Unexpected result format from generate_final_summary" ∧
    AgentsAdkTools.combineSummariesParse (.dict []) =
      "Successfully combined summaries (no text returned)." ∧
    (∀ v, lookupKey "final_summary" fs = Option.some v →
      AgentsAdkTools.combineSummariesParse (.dict fs) = pyStr v) ∧
    (lookupKey "final_summary" fs = Option.none → ∀ er, lookupKey "error" fs = Option.some er →
      AgentsAdkTools.combineSummariesParse (.dict fs) =
        "Error from combine_summaries: " ++ pyStr er) ∧
    (lookupKey "final_summary" fs = Option.none → lookupKey "error" fs = Option.none →
      fs.isEmpty = false →
      AgentsAdkTools.combineSummariesParse (.dict fs) =
        "Error: Unexpected result format from generate_final_summary") := by
refine ⟨?_, ?_, ?_, rfl, rfl, rfl, rfl, rfl, ?_, ?_, ?_⟩
· intro v hv
  simp [AgentsAdkTools.summarizeVideoParse, hv]
· intro hnone er her
  simp [AgentsAdkTools.summarizeVideoParse, hnone, her]
· intro hnone hnone' _
  simp [AgentsAdkTools.summarizeVideoParse, hnone, hnone']
· intro v hv
  simp [AgentsAdkTools.combineSummariesParse, hv]
· intro hnone er her
  simp [AgentsAdkTools.combineSummariesParse, hnone, her]
· intro hnone hnone' hne
  simp [AgentsAdkTools.combineSummariesParse, hnone, hnone', hne]

/-- Witness for `summarize_combine_normalization`: each keyed branch at a
concrete response dict. -/
theorem summarize_combine_normalization_witness :
    AgentsAdkTools.summarizeVideoParse (.dict [("summary", PyVal.str "S")]) = "S" ∧
    AgentsAdkTools.summarizeVideoParse (.dict [("error", PyVal.str "boom")]) =
      "Error from summarize_video: " ++ pyStr (PyVal.str "boom") ∧
    AgentsAdkTools.summarizeVideoParse (.dict [("other", PyVal.int 3)]) =
      "Error: Unexpected result format from get_youtube_video_summary" ∧
    AgentsAdkTools.combineSummariesParse (.dict [("final_summary", PyVal.str "F")]) = "F" ∧
    AgentsAdkTools.combineSummariesParse (.dict [("error", PyVal.str "boom")]) =
      "Error from combine_summaries: " ++ pyStr (PyVal.str "boom") ∧
    AgentsAdkTools.combineSummariesParse (.dict [("other", PyVal.int 3)]) =
      "Error: Unexpected result format from generate_final_summary" := by
refine ⟨?_, ?_, ?_, ?_, ?_, ?_⟩
· exact (summarize_combine_normalization [("summary", PyVal.str "S")] "x" 0).1
    (PyVal.str "S") rfl
· exact (summarize_combine_normalization [("error", PyVal.str "boom")] "x" 0).2.1
    rfl (PyVal.str "boom") rfl
· exact (summarize_combine_normalization [("other", PyVal.int 3)] "x" 0).2.2.1
    rfl rfl rfl
· exact (summarize_combine_normalization [("final_summary", PyVal.str "F")] "x" 0).2.2.2.2.2.2.2.2.1
    (PyVal.str "F") rfl
· exact (summarize_combine_normalization [("error", PyVal.str "boom")] "x" 0).2.2.2.2.2.2.2.2.2.1
    rfl (PyVal.str "boom") rfl
· exact (summarize_combine_normalization [("other", PyVal.int 3)] "x" 0).2.2.2.2.2.2.2.2.2.2
    rfl rfl rfl

/-- **C9**: on a capacity-1 pool with a single caller, the first acquire for
a fresh endpoint establishes exactly one connection and hands out the fresh
handle; releasing it leaves the endpoint's queue non-empty; a second
acquire/release cycle returns the very same handle without any further
connection establishment and again leaves the queue non-empty. -/
theorem pool_capacity_one_reuse (s : Pool.PoolState) (url : String) (c2 : Except String Unit)
    (hmiss : Pool.hasKey url s.sessions = false) :
    ∃ s1 s2 s3 s4,
      Pool.getMcpSession url (.ok ()) s = (s1, .ok s.nextHandle) ∧
      s1.connectCalls = s.connectCalls + 1 ∧
      Pool.releaseMcpSession url s.nextHandle s1 = Option.some s2 ∧
      Pool.getQueue url s2.sessions = [s.nextHandle] ∧
      Pool.getMcpSession url c2 s2 = (s3, .ok s.nextHandle) ∧
      s3.connectCalls = s1.connectCalls ∧
      Pool.releaseMcpSession url s.nextHandle s3 = Option.some s4 ∧
      Pool.getQueue url s4.sessions = [s.nextHandle] := by
have hsess : Pool.hasKey url (Pool.ensureLock url s).sessions = false := by
  rw [Pool.ensureLock_sessions]; exact hmiss
refine ⟨⟨(Pool.ensureLock url s).locks, Pool.setQueue url [] s.sessions,
      if Pool.memStr url s.exitStacks then s.exitStacks else s.exitStacks ++ [url],
      s.nextHandle + 1, s.connectCalls + 1⟩,
    ⟨(Pool.ensureLock url s).locks, Pool.setQueue url [s.nextHandle] s.sessions,
      if Pool.memStr url s.exitStacks then s.exitStacks else s.exitStacks ++ [url],
      s.nextHandle + 1, s.connectCalls + 1⟩,
    ⟨(Pool.ensureLock url s).locks, Pool.setQueue url [] s.sessions,
      if Pool.memStr url s.exitStacks then s.exitStacks else s.exitStacks ++ [url],
      s.nextHandle + 1, s.connectCalls + 1⟩,
    ⟨(Pool.ensureLock url s).locks, Pool.setQueue url [s.nextHandle] s.sessions,
      if Pool.memStr url s.exitStacks then s.exitStacks else s.exitStacks ++ [url],
      s.nextHandle + 1, s.connectCalls + 1⟩, ?_, rfl, ?_, ?_, ?_, rfl, ?_, ?_⟩
· -- first acquire: initialize, connect once, hand out the fresh handle
  simp [Pool.getMcpSession, hsess, hmiss, Pool.queueGet, Pool.getQueue_setQueue_same,
    Pool.setQueue_setQueue_same, Pool.ensureLock_sessions, Pool.ensureLock_exitStacks,
    Pool.ensureLock_nextHandle, Pool.ensureLock_connectCalls]
· -- release puts the handle back into the (empty) queue
  simp [Pool.releaseMcpSession, Pool.hasKey_setQueue_same, Pool.getQueue_setQueue_same,
    Pool.setQueue_setQueue_same]
· simp [Pool.getQueue_setQueue_same]
· -- second acquire: pooled path, no connection establishment
  simp [Pool.getMcpSession, Pool.ensureLock_of_mem, Pool.ensureLock_locks_mem,
    Pool.hasKey_setQueue_same, Pool.queueGet, Pool.getQueue_setQueue_same,
    Pool.setQueue_setQueue_same]
· -- second release
  simp [Pool.releaseMcpSession, Pool.hasKey_setQueue_same, Pool.getQueue_setQueue_same,
    Pool.setQueue_setQueue_same]
· simp [Pool.getQueue_setQueue_same]

/-- Stringifying a list of Python strings is the identity. -/
theorem map_pyStr_str (L : List String) :
    List.map ((fun item => PyVal.str (pyStr item)) ∘ PyVal.str) L = List.map PyVal.str L := by
induction L with
| nil => rfl
| cons a as ih =>
  rw [List.map_cons, List.map_cons, ih]
  rfl

/-- **C6**: for every list of strings, both `find_videos_via_a2a` variants
return an identical value whether a COMPLETED peer response carries the
list as a structured `DataPart` or as its JSON-encoded `TextPart`
equivalent; in particular the two shapes agree (trivially, being equal) on
whether an error-marker first element makes the list a propagated failure,
and the common value is the list itself. -/
theorem find_videos_roundtrip (L : List String) :
    A2A.findVideosViaA2aAgents (A2A.dataShape L) =
      A2A.findVideosViaA2aAgents (A2A.textShape L) ∧
    A2A.findVideosViaA2aSrc (A2A.dataShape L) =
      A2A.findVideosViaA2aSrc (A2A.textShape L) ∧
    A2A.findVideosViaA2aAgents (A2A.dataShape L) = L.map PyVal.str ∧
    A2A.findVideosViaA2aSrc (A2A.dataShape L) = L.map PyVal.str := by
refine ⟨?_, ?_, ?_, ?_⟩ <;>
  simp [A2A.findVideosViaA2aAgents, A2A.findVideosViaA2aSrc, A2A.dataShape, A2A.textShape,
    A2A.partsLoopA, A2A.partsLoopB, map_pyStr_str]

/-- `partsLoopA` falls through a run of parts none of which is parsable. -/
theorem partsLoopA_unparsable (parts : List A2A.RespPart)
    (h : parts.all A2A.unparsablePart = true) :
    A2A.partsLoopA parts = Option.none := by
induction parts with
| nil => rfl
| cons p rest ih =>
  rw [List.all_cons, Bool.and_eq_true] at h
  obtain ⟨hp, hrest⟩ := h
  have ih' := ih hrest
  cases p with
  | data d =>
    cases d with
    | list xs => simp [A2A.unparsablePart] at hp
    | none => simpa [A2A.partsLoopA] using ih'
    | str s => simpa [A2A.partsLoopA] using ih'
    | int n => simpa [A2A.partsLoopA] using ih'
    | dict fs => simpa [A2A.partsLoopA] using ih'
  | text t =>
    cases t with
    | json v =>
      cases v with
      | list xs => simp [A2A.unparsablePart] at hp
      | none => simpa [A2A.partsLoopA] using ih'
      | str s => simpa [A2A.partsLoopA] using ih'
      | int n => simpa [A2A.partsLoopA] using ih'
      | dict fs => simpa [A2A.partsLoopA] using ih'
    | raw s =>
      have hs : pyStartsWith s "Error:" = false := by
        simpa [A2A.unparsablePart] using hp
      simp [A2A.partsLoopA, hs, ih']

/-- `partsLoopB` falls through a run of parts none of which is parsable. -/
theorem partsLoopB_unparsable (parts : List A2A.RespPart)
    (h : parts.all A2A.unparsablePart = true) :
    ∀ acc, A2A.partsLoopB acc parts = Option.none := by
induction parts with
| nil => intro acc; rfl
| cons p rest ih =>
  rw [List.all_cons, Bool.and_eq_true] at h
  obtain ⟨hp, hrest⟩ := h
  have ih' := ih hrest
  intro acc
  cases p with
  | data d =>
    cases d with
    | list xs => simp [A2A.unparsablePart] at hp
    | none => simpa [A2A.partsLoopB] using ih' acc
    | str s => simpa [A2A.partsLoopB] using ih' acc
    | int n => simpa [A2A.partsLoopB] using ih' acc
    | dict fs => simpa [A2A.partsLoopB] using ih' acc
  | text t =>
    cases t with
    | json v =>
      cases v with
      | list xs => simp [A2A.unparsablePart] at hp
      | none => simpa [A2A.partsLoopB] using ih' acc
      | str s => simpa [A2A.partsLoopB] using ih' acc
      | int n => simpa [A2A.partsLoopB] using ih' acc
      | dict fs => simpa [A2A.partsLoopB] using ih' acc
    | raw s =>
      have hs : pyStartsWith s "Error:" = false := by
        simpa [A2A.unparsablePart] using hp
      simp [A2A.partsLoopB, hs, ih' acc]

/-- **C7 counterexample**: a nominally COMPLETED peer response with *no*
artifacts takes the `else` branch of both `find_videos_via_a2a` variants
and yields the "Unexpected response state" failure, not a message
indicating "no parsable result". -/
theorem completed_without_artifacts_unexpected_state :
    A2A.findVideosViaA2aAgents A2A.emptyCompletedResp =
      [PyVal.str "Error: Unexpected response state from YouTube agent: TaskState.COMPLETED"] ∧
    A2A.findVideosViaA2aSrc A2A.emptyCompletedResp =
      [PyVal.str "Error: Unexpected response state from YouTube agent: TaskState.COMPLETED"] ∧
    pyHasSub "Error: Unexpected response state from YouTube agent: TaskState.COMPLETED"
      "parsable" = false ∧
    pyHasSub "Error: Unexpected response state from YouTube agent: TaskState.COMPLETED"
      "valid video list" = false := by
refine ⟨rfl, rfl, by decide, by decide⟩

/-- **C7 amended**: a COMPLETED peer response with at least one artifact
but no parsable part yields the "no valid video list" /
"no parsable video list" failure; a COMPLETED response with no artifacts
at all instead falls through to the "Unexpected response state" failure. -/
theorem completed_no_parsable_artifact (resp : A2A.Response)
    (hstate : resp.state = .completed) :
    (resp.artifacts = [] →
      A2A.findVideosViaA2aAgents resp =
        [PyVal.str ("Error: Unexpected response state from YouTube agent: "
          ++ A2A.stateRendered .completed)] ∧
      A2A.findVideosViaA2aSrc resp =
        [PyVal.str ("Error: Unexpected response state from YouTube agent: "
          ++ A2A.stateRendered .completed)]) ∧
    (resp.artifacts.isEmpty = false →
      (resp.artifacts.flatMap (fun a => a.parts)).all A2A.unparsablePart = true →
      A2A.findVideosViaA2aAgents resp =
        [PyVal.str "Error: YouTube agent returned no valid video list."] ∧
      A2A.findVideosViaA2aSrc resp =
        [PyVal.str "Error: YouTube agent returned no parsable video list."]) := by
constructor
· intro hempty
  constructor <;>
    simp [A2A.findVideosViaA2aAgents, A2A.findVideosViaA2aSrc, hstate, hempty]
· intro hne hall
  constructor
  · simp [A2A.findVideosViaA2aAgents, hstate, hne, partsLoopA_unparsable _ hall]
  · simp [A2A.findVideosViaA2aSrc, hstate, hne, partsLoopB_unparsable _ hall]

/-- Witness for `completed_no_parsable_artifact`: an artifact-free
COMPLETED response, and one whose single artifact holds a non-JSON text
part without the error marker. -/
theorem completed_no_parsable_artifact_witness :
    (A2A.emptyCompletedResp.state = .completed ∧
      A2A.emptyCompletedResp.artifacts = [] ∧
      A2A.findVideosViaA2aAgents A2A.emptyCompletedResp =
        [PyVal.str ("Error: Unexpected response state from YouTube agent: "
          ++ A2A.stateRendered .completed)]) ∧
    ((A2A.Response.mk .completed Option.none
        [A2A.RespArtifact.mk [A2A.RespPart.text (A2A.TContent.raw "plain text")]]).state
          = .completed ∧
      A2A.findVideosViaA2aAgents (A2A.Response.mk .completed Option.none
        [A2A.RespArtifact.mk [A2A.RespPart.text (A2A.TContent.raw "plain text")]]) =
        [PyVal.str "Error: YouTube agent returned no valid video list."] ∧
      A2A.findVideosViaA2aSrc (A2A.Response.mk .completed Option.none
        [A2A.RespArtifact.mk [A2A.RespPart.text (A2A.TContent.raw "plain text")]]) =
        [PyVal.str "Error: YouTube agent returned no parsable video list."]) := by
refine ⟨⟨rfl, rfl, ?_⟩, ⟨rfl, ?_, ?_⟩⟩
· exact ((completed_no_parsable_artifact A2A.emptyCompletedResp rfl).1 rfl).1
· exact ((completed_no_parsable_artifact (A2A.Response.mk .completed Option.none
    [A2A.RespArtifact.mk [A2A.RespPart.text (A2A.TContent.raw "plain text")]]) rfl).2
      rfl (by decide)).1
· exact ((completed_no_parsable_artifact (A2A.Response.mk .completed Option.none
    [A2A.RespArtifact.mk [A2A.RespPart.text (A2A.TContent.raw "plain text")]]) rfl).2
      rfl (by decide)).2

/-- `_parse_agent_result` always returns a terminal state with exactly one
artifact: a structured-data artifact when COMPLETED, a text-first artifact
when FAILED. -/
theorem parse_shape (c : LgTM.JContent) :
    ((LgTM.parseAgentResult c).1 = .completed ∧
      ∃ xs, (LgTM.parseAgentResult c).2 = [Artifact.mk [Part.data (PyVal.list xs)]]) ∨
    ((LgTM.parseAgentResult c).1 = .failed ∧
      ∃ t, (LgTM.parseAgentResult c).2 = [Artifact.mk [Part.text t]]) := by
unfold LgTM.parseAgentResult
cases hc : c.parsed with
| jlist xs =>
  cases xs with
  | nil => exact Or.inl ⟨rfl, [], rfl⟩
  | cons hd tl =>
    cases hd with
    | str s =>
      by_cases hs : pyStartsWith s "Error:" = true
      · exact Or.inr ⟨by simp [hs], s, by simp [hs]⟩
      · rw [Bool.not_eq_true] at hs
        exact Or.inl ⟨by simp [hs], PyVal.str s :: tl, by simp [hs]⟩
    | none => exact Or.inl ⟨rfl, PyVal.none :: tl, rfl⟩
    | int n => exact Or.inl ⟨rfl, PyVal.int n :: tl, rfl⟩
    | list l => exact Or.inl ⟨rfl, PyVal.list l :: tl, rfl⟩
    | dict d => exact Or.inl ⟨rfl, PyVal.dict d :: tl, rfl⟩
| jother ty => exact Or.inr ⟨rfl, _, rfl⟩
| nojson => exact Or.inr ⟨rfl, c.raw, rfl⟩

/-- The `try`-body of the LangGraph stream generator delivers a terminal
state and artifacts of the shapes `_parse_agent_result` guarantees, and all
events it yields are non-final working statuses or JSON-RPC errors. -/
theorem lgLoop_shape (items : List LgTM.StreamItem) (exn : Option String)
    (last : Option LgTM.JContent) :
    (((LgTM.lgLoop items exn last).2.1 = .completed ∧
        ∃ l, (LgTM.lgLoop items exn last).2.2 = Option.some l ∧ l ≠ []) ∨
      ((LgTM.lgLoop items exn last).2.1 = .failed ∧
        ∃ t ps arts, (LgTM.lgLoop items exn last).2.2 =
          Option.some (Artifact.mk (Part.text t :: ps) :: arts))) ∧
    (LgTM.lgLoop items exn last).1.all
      (fun e => !(isFinalStatus e) && !(isArtifactEv e)) = true := by
induction items generalizing last with
| nil =>
  cases exn with
  | none =>
    cases last with
    | none =>
      refine ⟨Or.inr ⟨rfl, "Error: Agent stream ended without final output.", [], [], rfl⟩, rfl⟩
    | some c =>
      refine ⟨?_, rfl⟩
      rcases parse_shape c with ⟨hst, xs, harts⟩ | ⟨hst, t, harts⟩
      · exact Or.inl ⟨by simpa [LgTM.lgLoop] using hst,
          [Artifact.mk [Part.data (PyVal.list xs)]], by simp [LgTM.lgLoop, harts], by simp⟩
      · exact Or.inr ⟨by simpa [LgTM.lgLoop] using hst, t, [], [],
          by simp [LgTM.lgLoop, harts]⟩
  | some e =>
    refine ⟨Or.inr ⟨rfl, "Stream failed: " ++ e, [], [], rfl⟩, rfl⟩
| cons item rest ih =>
  cases hflag : item.is_task_complete with
  | true =>
    refine ⟨?_, by simp [LgTM.lgLoop, hflag]⟩
    rcases parse_shape item.content with ⟨hst, xs, harts⟩ | ⟨hst, t, harts⟩
    · exact Or.inl ⟨by simp [LgTM.lgLoop, hflag, hst],
        [Artifact.mk [Part.data (PyVal.list xs)]], by simp [LgTM.lgLoop, hflag, harts], by simp⟩
    · exact Or.inr ⟨by simp [LgTM.lgLoop, hflag, hst], t, [], [],
        by simp [LgTM.lgLoop, hflag, harts]⟩
  | false =>
    have ihc := ih (Option.some item.content)
    refine ⟨?_, ?_⟩
    · rcases ihc.1 with ⟨hst, l, harts, hne⟩ | ⟨hst, t, ps, arts, harts⟩
      · exact Or.inl ⟨by simp [LgTM.lgLoop, hflag, hst], l,
          by simp [LgTM.lgLoop, hflag, harts], hne⟩
      · exact Or.inr ⟨by simp [LgTM.lgLoop, hflag, hst], t, ps, arts,
          by simp [LgTM.lgLoop, hflag, harts]⟩
    · simpa [LgTM.lgLoop, hflag, isFinalStatus, isArtifactEv] using ihc.2

/-- An all-check over a conjunction of predicates gives the left one. -/
theorem all_and_left {l : List Event} {p q : Event → Bool}
    (h : l.all (fun e => p e && q e) = true) : l.all p = true := by
rw [List.all_eq_true] at h ⊢
intro e he
exact ((Bool.and_eq_true _ _).mp (h e he)).1

/-- An all-check over a conjunction of predicates gives the right one. -/
theorem all_and_right {l : List Event} {p q : Event → Bool}
    (h : l.all (fun e => p e && q e) = true) : l.all q = true := by
rw [List.all_eq_true] at h ⊢
intro e he
exact ((Bool.and_eq_true _ _).mp (h e he)).2

/-- Artifact-update events are never final status updates. -/
theorem map_artifact_not_final (l : List Artifact) :
    (l.map Event.artifact).all (fun e => !(isFinalStatus e)) = true := by
induction l with
| nil => rfl
| cons a as ih => simpa [isFinalStatus] using ih

/-- Artifact-update events are never status updates. -/
theorem map_artifact_not_status (l : List Artifact) :
    (l.map Event.artifact).all (fun e => !(isStatusEv e)) = true := by
induction l with
| nil => rfl
| cons a as ih => simpa [isStatusEv] using ih

/-- Artifact-update events do not contribute to the final-status count. -/
theorem finalCount_map_artifact (l : List Artifact) (evs : List Event) :
    finalCount (l.map Event.artifact ++ evs) = finalCount evs := by
induction l with
| nil => rfl
| cons a as ih => simpa [finalCount, List.filter_cons, isFinalStatus] using ih

/-- Filtering final status updates out of artifact-update events is empty. -/
theorem filter_final_map_artifact (l : List Artifact) :
    List.filter isFinalStatus (l.map Event.artifact) = [] := by
induction l with
| nil => rfl
| cons a as ih => simpa [List.filter_cons, isFinalStatus] using ih

/-- Artifact-update events are skipped by `noStatusAfterFinal`. -/
theorem noStatusAfterFinal_map_artifact (l : List Artifact) (evs : List Event) :
    noStatusAfterFinal (l.map Event.artifact ++ evs) = noStatusAfterFinal evs := by
induction l with
| nil => rfl
| cons a as ih => simpa [noStatusAfterFinal, isFinalStatus] using ih

/-- Artifact-update events are ignored by `finalsTerminal`. -/
theorem finalsTerminal_map_artifact (l : List Artifact) (evs : List Event) :
    finalsTerminal (l.map Event.artifact ++ evs) = finalsTerminal evs := by
induction l with
| nil => rfl
| cons a as ih => simpa [finalsTerminal, List.all_cons] using ih

/-- The empty content string does not trip the error sniffing. -/
theorem errorSniff_ne_empty (c : String) (h : AdkTM.errorSniff c = true) : c ≠ "" := by
intro he
rw [he] at h
exact absurd h (by decide)

/-- The LangGraph stream generator stores artifacts exactly on COMPLETED and
stores a message with no artifacts on FAILED. -/
theorem lg_stream_store (items : List LgTM.StreamItem) (exn : Option String) (r : StoreRecord)
    (hr : (LgTM.streamGen items exn).store = Option.some r) :
    (hasArtifacts r = true ↔ r.state = .completed) ∧
    (r.state = .failed → r.artifacts = Option.none ∧ r.message ≠ Option.none) := by
obtain ⟨hshape, -⟩ := lgLoop_shape items exn Option.none
rcases hshape with ⟨hst, l, harts, hne⟩ | ⟨hst, t, ps, arts', harts⟩
· simp [LgTM.streamGen, LgTM.lgFinally, hst, harts] at hr
  rcases l with _ | ⟨a, l'⟩
  · exact absurd rfl hne
  · rw [← hr]
    simp [hasArtifacts]
· simp [LgTM.streamGen, LgTM.lgFinally, hst, harts] at hr
  rw [← hr]
  simp [hasArtifacts]

/-- The LangGraph stream generator emits some non-final, non-artifact
prefix, then artifact updates only when COMPLETED, then exactly one final
status update carrying a terminal state, as the last event. -/
theorem lg_stream_events (items : List LgTM.StreamItem) (exn : Option String) :
    ∃ pre st msg,
      (LgTM.streamGen items exn).events = pre ++ [Event.status st msg true] ∧
      (st = .completed ∨ st = .failed) ∧
      pre.all (fun e => !(isFinalStatus e)) = true ∧
      (pre.all (fun e => !(isArtifactEv e)) = true ∨ st = .completed) := by
obtain ⟨hshape, hallev⟩ := lgLoop_shape items exn Option.none
rcases hshape with ⟨hst, l, harts, hne⟩ | ⟨hst, t, ps, arts', harts⟩
· refine ⟨(LgTM.lgLoop items exn Option.none).1 ++ l.map Event.artifact,
    .completed, Option.none, ?_, Or.inl rfl, ?_, Or.inr rfl⟩
  · simp [LgTM.streamGen, LgTM.lgFinally, hst, harts, List.append_assoc]
  · rw [List.all_append, Bool.and_eq_true]
    exact ⟨all_and_left hallev, map_artifact_not_final l⟩
· refine ⟨(LgTM.lgLoop items exn Option.none).1, .failed,
    Option.some { role := "agent", parts := Part.text t :: ps }, ?_, Or.inr rfl,
    all_and_left hallev, Or.inl (all_and_right hallev)⟩
  simp [LgTM.streamGen, LgTM.lgFinally, hst, harts]

/-- The ADK stream generator: at most one final status update (exactly one
when the agent run terminates or raises), every final status update is
terminal, and no status update follows a final one. -/
theorem adk_stream_events (items : List AdkTM.StreamItem) (exn : Option String) :
    finalCount (AdkTM.streamGen items exn).events ≤ 1 ∧
    (finalCount (AdkTM.streamGen items exn).events = 1 ↔ adkTerminates items exn = true) ∧
    noStatusAfterFinal (AdkTM.streamGen items exn).events = true ∧
    finalsTerminal (AdkTM.streamGen items exn).events = true := by
induction items with
| nil =>
  cases exn with
  | none => simp [AdkTM.streamGen, AdkTM.streamLoop, finalCount, noStatusAfterFinal,
      finalsTerminal, adkTerminates]
  | some e => simp [AdkTM.streamGen, AdkTM.streamLoop, finalCount, List.filter_cons,
      isFinalStatus, noStatusAfterFinal, isStatusEv, finalsTerminal, adkTerminates]
| cons item rest ih =>
  by_cases hsn : AdkTM.errorSniff item.content = true
  · refine ⟨?_, ?_, ?_, ?_⟩ <;>
      simp [AdkTM.streamGen, AdkTM.streamLoop, hsn, finalCount, List.filter_cons,
        isFinalStatus, noStatusAfterFinal, map_artifact_not_status,
        finalsTerminal, List.all_cons, finalsTerminal_map_artifact, adkTerminates,
        finalCount_map_artifact, List.filter_map]
  · rw [Bool.not_eq_true] at hsn
    cases hflag : item.is_task_complete with
    | true =>
      refine ⟨?_, ?_, ?_, ?_⟩ <;>
        simp [AdkTM.streamGen, AdkTM.streamLoop, hsn, hflag, finalCount, List.filter_cons,
          isFinalStatus, noStatusAfterFinal, map_artifact_not_status,
          finalsTerminal, List.all_cons, finalsTerminal_map_artifact, adkTerminates,
          finalCount_map_artifact, List.filter_map]
    | false =>
      have ih' := ih
      refine ⟨?_, ?_, ?_, ?_⟩
      · simpa [AdkTM.streamGen, AdkTM.streamLoop, hsn, hflag, finalCount, List.filter_cons,
          isFinalStatus, finalCount_map_artifact, filter_final_map_artifact] using ih'.1
      · simpa [AdkTM.streamGen, AdkTM.streamLoop, hsn, hflag, finalCount, List.filter_cons,
          isFinalStatus, finalCount_map_artifact, filter_final_map_artifact,
          adkTerminates] using ih'.2.1
      · simpa [AdkTM.streamGen, AdkTM.streamLoop, hsn, hflag, noStatusAfterFinal,
          isFinalStatus, noStatusAfterFinal_map_artifact] using ih'.2.2.1
      · simpa [AdkTM.streamGen, AdkTM.streamLoop, hsn, hflag, finalsTerminal,
          List.all_cons, finalsTerminal_map_artifact] using ih'.2.2.2

/-- The ADK stream generator's stored terminal record: artifacts imply
COMPLETED, FAILED carries a message and no artifacts, and COMPLETED either
has artifacts or (empty terminal content) the "Task finished." message. -/
theorem adk_stream_store (items : List AdkTM.StreamItem) (exn : Option String) (r : StoreRecord)
    (hr : (AdkTM.streamGen items exn).store = Option.some r) :
    (hasArtifacts r = true → r.state = .completed) ∧
    (r.state = .failed → r.artifacts = Option.none ∧ r.message ≠ Option.none) ∧
    (r.state = .completed → hasArtifacts r = true ∨
      (r.artifacts = Option.none ∧ r.message = Option.some (agentMsg "Task finished."))) := by
induction items with
| nil =>
  cases exn with
  | none => simp [AdkTM.streamGen, AdkTM.streamLoop] at hr
  | some e =>
    simp [AdkTM.streamGen, AdkTM.streamLoop] at hr
    rw [← hr]
    simp [hasArtifacts]
| cons item rest ih =>
  by_cases hsn : AdkTM.errorSniff item.content = true
  · have hcne : item.content ≠ "" := errorSniff_ne_empty _ hsn
    simp [AdkTM.streamGen, AdkTM.streamLoop, hsn, hcne] at hr
    rw [← hr]
    simp [hasArtifacts]
  · rw [Bool.not_eq_true] at hsn
    cases hflag : item.is_task_complete with
    | false =>
      simp [AdkTM.streamGen, AdkTM.streamLoop, hsn, hflag] at hr
      exact ih (by simpa [AdkTM.streamGen] using hr)
    | true =>
      by_cases hc : item.content = ""
      · have hes : AdkTM.errorSniff "" = false := by decide
        simp [AdkTM.streamGen, AdkTM.streamLoop, hflag, hc, hes] at hr
        rw [← hr]
        simp [hasArtifacts]
      · simp [AdkTM.streamGen, AdkTM.streamLoop, hsn, hflag, hc] at hr
        rw [← hr]
        simp [hasArtifacts]

/-- The one-shot ADK summary handler stores artifacts exactly on COMPLETED
and a message with no artifacts on FAILED. -/
theorem adk_onSendTask_store (oc : Except String String) :
    (hasArtifacts (AdkTM.onSendTask oc) = true ↔ (AdkTM.onSendTask oc).state = .completed) ∧
    ((AdkTM.onSendTask oc).state = .failed →
      (AdkTM.onSendTask oc).artifacts = Option.none ∧
      (AdkTM.onSendTask oc).message ≠ Option.none) := by
cases oc with
| error e => simp [AdkTM.onSendTask, hasArtifacts]
| ok content =>
  by_cases h : AdkTM.errorSniff content = true
  · simp [AdkTM.onSendTask, h, hasArtifacts]
  · rw [Bool.not_eq_true] at h
    simp [AdkTM.onSendTask, h, hasArtifacts]

/-- The one-shot LangGraph handler stores artifacts exactly on COMPLETED
and a message with no artifacts on FAILED. -/
theorem lg_onSendTask_store (oc : Except String LgTM.JContent) :
    (hasArtifacts (LgTM.onSendTask oc) = true ↔ (LgTM.onSendTask oc).state = .completed) ∧
    ((LgTM.onSendTask oc).state = .failed →
      (LgTM.onSendTask oc).artifacts = Option.none ∧
      (LgTM.onSendTask oc).message ≠ Option.none) := by
cases oc with
| error e => simp [LgTM.onSendTask, hasArtifacts]
| ok c =>
  rcases parse_shape c with ⟨hst, xs, harts⟩ | ⟨hst, t, harts⟩
  · simp [LgTM.onSendTask, hst, harts, hasArtifacts]
  · simp [LgTM.onSendTask, hst, harts, hasArtifacts]

/-- **C1 counterexample**: the ADK streaming generator, fed a terminal item
whose content is the empty string, stores a COMPLETED record with *no*
artifacts (and the "Task finished." message) — so a COMPLETED terminal
state does not imply a present, non-empty artifact list. -/
theorem adk_stream_completed_without_artifacts :
    (AdkTM.streamGen [AdkTM.StreamItem.mk true "" []] Option.none).store =
      Option.some (StoreRecord.mk .completed
        (Option.some (agentMsg "Task finished.")) Option.none) := rfl

/-- **C1 amended**: for every task record stored by the one-shot handlers
and by the LangGraph streaming generator, artifacts are present and
non-empty iff the terminal state is COMPLETED; for the ADK streaming
generator, artifacts imply COMPLETED, and a COMPLETED record either has
artifacts or — when the terminal content string is empty — no artifacts
and the "Task finished." message.  In all four producers a FAILED record
stores no artifacts and carries an explanatory message. -/
theorem task_record_artifact_invariant :
    (∀ oc : Except String String,
      (hasArtifacts (AdkTM.onSendTask oc) = true ↔ (AdkTM.onSendTask oc).state = .completed) ∧
      ((AdkTM.onSendTask oc).state = .failed →
        (AdkTM.onSendTask oc).artifacts = Option.none ∧
        (AdkTM.onSendTask oc).message ≠ Option.none)) ∧
    (∀ oc : Except String LgTM.JContent,
      (hasArtifacts (LgTM.onSendTask oc) = true ↔ (LgTM.onSendTask oc).state = .completed) ∧
      ((LgTM.onSendTask oc).state = .failed →
        (LgTM.onSendTask oc).artifacts = Option.none ∧
        (LgTM.onSendTask oc).message ≠ Option.none)) ∧
    (∀ items exn r, (LgTM.streamGen items exn).store = Option.some r →
      (hasArtifacts r = true ↔ r.state = .completed) ∧
      (r.state = .failed → r.artifacts = Option.none ∧ r.message ≠ Option.none)) ∧
    (∀ items exn r, (AdkTM.streamGen items exn).store = Option.some r →
      (hasArtifacts r = true → r.state = .completed) ∧
      (r.state = .failed → r.artifacts = Option.none ∧ r.message ≠ Option.none) ∧
      (r.state = .completed → hasArtifacts r = true ∨
        (r.artifacts = Option.none ∧ r.message = Option.some (agentMsg "Task finished.")))) :=
  ⟨adk_onSendTask_store, lg_onSendTask_store,
   fun items exn r hr => lg_stream_store items exn r hr,
   fun items exn r hr => adk_stream_store items exn r hr⟩

/-- Witness for `task_record_artifact_invariant`: the stored records of a
completed ADK stream run and of an empty LangGraph stream run. -/
theorem task_record_artifact_invariant_witness :
    ((AdkTM.streamGen [AdkTM.StreamItem.mk true "done" []] Option.none).store =
      Option.some (StoreRecord.mk .completed (Option.some (agentMsg "done"))
        (Option.some [Artifact.mk [Part.text "done"]])) ∧
      (hasArtifacts (StoreRecord.mk .completed (Option.some (agentMsg "done"))
          (Option.some [Artifact.mk [Part.text "done"]])) = true →
        (StoreRecord.mk .completed (Option.some (agentMsg "done"))
          (Option.some [Artifact.mk [Part.text "done"]])).state = .completed)) ∧
    ((LgTM.streamGen [] Option.none).store =
      Option.some (StoreRecord.mk .failed
        (Option.some (Message.mk "agent"
          [Part.text "Error: Agent stream ended without final output."]))
        Option.none) ∧
      ((StoreRecord.mk .failed
          (Option.some (Message.mk "agent"
            [Part.text "Error: Agent stream ended without final output."]))
          Option.none).state = .failed →
        (StoreRecord.mk .failed
          (Option.some (Message.mk "agent"
            [Part.text "Error: Agent stream ended without final output."]))
          Option.none).artifacts = Option.none)) := by
refine ⟨⟨rfl, ?_⟩, ⟨rfl, ?_⟩⟩
· exact fun hh =>
    (task_record_artifact_invariant.2.2.2 [AdkTM.StreamItem.mk true "done" []]
      Option.none _ rfl).1 hh
· exact fun hh =>
    ((task_record_artifact_invariant.2.2.1 [] Option.none _ rfl).2 hh).1

/-- **C2 counterexample**: the ADK streaming generator can emit *zero*
final status updates (agent stream ends without a terminal item), and when
the terminal item carries an artifacts payload the artifact-update event is
emitted *after* the final status update, not before it. -/
theorem adk_stream_final_misordered :
    (AdkTM.streamGen [] Option.none).events = [] ∧
    (AdkTM.streamGen [AdkTM.StreamItem.mk true "done" [Artifact.mk [Part.text "a"]]]
        Option.none).events =
      [Event.status .completed (Option.some (agentMsg "done")) true,
       Event.artifact (Artifact.mk [Part.text "a"])] :=
  ⟨rfl, rfl⟩

/-- **C2 amended**: the LangGraph streaming generator satisfies the claim as
stated: one final status update with a terminal state, last in the stream,
preceded only by non-final events whose artifact updates occur only on
COMPLETED.  The ADK streaming generator emits at most one final status
update, always terminal and never followed by another status update, and
emits exactly one precisely when the agent run reaches a terminal item or
raises; artifact updates attached to the terminal item follow (rather than
precede) the final status update. -/
theorem stream_terminal_event_discipline :
    (∀ (items : List LgTM.StreamItem) (exn : Option String),
      ∃ pre st msg,
        (LgTM.streamGen items exn).events = pre ++ [Event.status st msg true] ∧
        (st = .completed ∨ st = .failed) ∧
        pre.all (fun e => !(isFinalStatus e)) = true ∧
        (pre.all (fun e => !(isArtifactEv e)) = true ∨ st = .completed)) ∧
    (∀ (items : List AdkTM.StreamItem) (exn : Option String),
      finalCount (AdkTM.streamGen items exn).events ≤ 1 ∧
      (finalCount (AdkTM.streamGen items exn).events = 1 ↔ adkTerminates items exn = true) ∧
      noStatusAfterFinal (AdkTM.streamGen items exn).events = true ∧
      finalsTerminal (AdkTM.streamGen items exn).events = true) :=
  ⟨lg_stream_events, adk_stream_events⟩

/-- Witness for `pool_capacity_one_reuse` at the empty pool. -/
theorem pool_capacity_one_reuse_witness :
    Pool.hasKey "http://mcp" Pool.emptyPool.sessions = false ∧
    (∃ s1 s2 s3 s4,
      Pool.getMcpSession "http://mcp" (.ok ()) Pool.emptyPool =
        (s1, .ok Pool.emptyPool.nextHandle) ∧
      s1.connectCalls = Pool.emptyPool.connectCalls + 1 ∧
      Pool.releaseMcpSession "http://mcp" Pool.emptyPool.nextHandle s1 = Option.some s2 ∧
      Pool.getQueue "http://mcp" s2.sessions = [Pool.emptyPool.nextHandle] ∧
      Pool.getMcpSession "http://mcp" (.ok ()) s2 = (s3, .ok Pool.emptyPool.nextHandle) ∧
      s3.connectCalls = s1.connectCalls ∧
      Pool.releaseMcpSession "http://mcp" Pool.emptyPool.nextHandle s3 = Option.some s4 ∧
      Pool.getQueue "http://mcp" s4.sessions = [Pool.emptyPool.nextHandle]) :=
  ⟨rfl, pool_capacity_one_reuse Pool.emptyPool "http://mcp" (.ok ()) rfl⟩

end YTA
